import Mathlib

/-!
# skidGUI: widget, layout and event engine

A shallow embedding of `skidGUI/skidGUI.h` and theorems about it.

Modelling conventions.

* C++ `int` and `LONG` values are Lean `Int`. Signed overflow is undefined
  behaviour in C++, so the model describes the executions the language
  defines; `/` on `int` truncates toward zero and is `Int.tdiv`.
* The host window system is a snapshot `Host`: the cursor position that
  `GetCursorPos`/`ScreenToClient` report, the value `GetAsyncKeyState`
  returns for the primary button and the rectangle `GetClientRect` reports.
  All queries made during one pass read the same snapshot.
* A callback is a function pointer that observes events. The events handed
  to callbacks are collected, in order, in a list returned next to the new
  state; the callback itself is taken not to write to the button.
* `Widget` is abstract with `Button` as its only subclass, so a widget is a
  `Button` record carrying the inherited fields.
* `std::map<int, V>` is an association list kept in ascending key order.
-/

namespace SkidGUI

/-- Win32 `POINT`. -/
structure POINT where
  x : Int
  y : Int
  deriving DecidableEq, Repr

/-- Win32 `RECT`. -/
structure RECT where
  left : Int
  top : Int
  right : Int
  bottom : Int
  deriving DecidableEq, Repr

/-- What the host window system answers during one pass (stands for `HWND`). -/
structure Host where
  /-- cursor position in client coordinates -/
  cursor : POINT
  /-- value of `GetAsyncKeyState(MK_LBUTTON)`: negative when the button is down -/
  lbutton : Int
  /-- value of `GetClientRect` -/
  client : RECT
  deriving DecidableEq, Repr

/-- Function `IsPointInsideRect` (skidGUI.h:27). -/
def IsPointInsideRect (point : POINT) (x y w h : Int) : Bool :=
  decide (point.x ≥ x) && decide (point.x < x + w) &&
    decide (point.y ≥ y) && decide (point.y < y + h)

/-- Function `GetMousePositionInWindow` (skidGUI.h:32): the cursor in client
coordinates. -/
def GetMousePositionInWindow (hwnd : Host) : POINT := hwnd.cursor

/-- The host call `GetAsyncKeyState(MK_LBUTTON)` (skidGUI.h:144, 148). -/
def GetAsyncKeyState (hwnd : Host) : Int := hwnd.lbutton

/-- The host call `GetClientRect` (skidGUI.h:297). -/
def GetClientRect (hwnd : Host) : RECT := hwnd.client

/-- The `enum ButtonEventType` (skidGUI.h:53). -/
inductive ButtonEventType where
  | NoEvent
  | OnMouseEnter
  | OnMouseLeave
  | OnClick
  deriving DecidableEq, Repr

/-- The `enum WidgetLayoutType` (skidGUI.h:57). -/
inductive WidgetLayoutType where
  | None
  | HorizontalFill
  deriving DecidableEq, Repr

/-- The `struct ButtonEvent` (skidGUI.h:61). -/
structure ButtonEvent where
  type : ButtonEventType := ButtonEventType.NoEvent
  mouseX : Int := 0
  mouseY : Int := 0
  deriving DecidableEq, Repr

/-- The `class Button : public Widget` (skidGUI.h:73, 85). The first five fields
are the ones inherited from `Widget`; `clbk` is the callback pointer, `none`
for `NULL`. -/
structure Button where
  id : Int := -1
  x : Int := 0
  y : Int := 0
  width : Int := 0
  height : Int := 0
  label : String := ""
  fontName : String := "Arial"
  fontSize : Int := 24
  fontColor : Nat := 0
  color : Nat := 0
  borderColor : Nat := 0
  borderSize : Int := 0
  clbk : Option Nat := none
  mouseInside : Bool := false
  mousePressed : Bool := false
  deriving DecidableEq, Repr

/-- Method `Button::CallEvent` (skidGUI.h:118): the events handed to the callback,
none when `clbk == NULL`. -/
def Button.CallEvent (b : Button) (type : ButtonEventType) (hwnd : Host) :
    List ButtonEvent :=
  match b.clbk with
  | none => []
  | some _ =>
    let mouse_pos := GetMousePositionInWindow hwnd
    [{ type := type, mouseX := mouse_pos.x, mouseY := mouse_pos.y }]

/-- Method `Button::physics` (skidGUI.h:132): the button after the pass and the
events delivered during it, in order. -/
def Button.physics (b : Button) (hwnd : Host) : Button × List ButtonEvent :=
  let mouse_pos := GetMousePositionInWindow hwnd
  let r1 : Button × List ButtonEvent :=
    if b.mouseInside && !IsPointInsideRect mouse_pos b.x b.y b.width b.height then
      let b1 := { b with mouseInside := false }
      (b1, b1.CallEvent ButtonEventType.OnMouseLeave hwnd)
    else if !b.mouseInside && IsPointInsideRect mouse_pos b.x b.y b.width b.height then
      let b1 := { b with mouseInside := true }
      (b1, b1.CallEvent ButtonEventType.OnMouseEnter hwnd)
    else (b, [])
  let r2 : Button × List ButtonEvent :=
    if r1.1.mouseInside && decide (GetAsyncKeyState hwnd < 0) && !r1.1.mousePressed then
      let b2 := { r1.1 with mousePressed := true }
      (b2, b2.CallEvent ButtonEventType.OnClick hwnd)
    else if decide (GetAsyncKeyState hwnd ≥ 0) && r1.1.mouseInside then
      ({ r1.1 with mousePressed := false }, [])
    else (r1.1, [])
  ({ r2.1 with
      mouseInside := IsPointInsideRect mouse_pos r2.1.x r2.1.y r2.1.width r2.1.height },
    r1.2 ++ r2.2)

/-- Lookup in a `std::map<int, V>` (`find`). -/
def mapFind {V : Type} : List (Int × V) → Int → Option V
  | [], _ => none
  | (k1, v) :: rest, k => if k = k1 then some v else mapFind rest k

/-- Store `v` under `k` in a `std::map<int, V>`: an existing entry is
overwritten, a new one is placed in ascending key order. -/
def mapSet {V : Type} : List (Int × V) → Int → V → List (Int × V)
  | [], k, v => [(k, v)]
  | (k1, v1) :: rest, k, v =>
    if k < k1 then (k, v) :: (k1, v1) :: rest
    else if k = k1 then (k, v) :: rest
    else (k1, v1) :: mapSet rest k v

/-- Access with `std::map::operator[]`: the value under `k`; when `k` is absent a
value-initialised entry `dflt` is inserted first. Returns the map after the
access and the value. -/
def mapIndex {V : Type} (dflt : V) (m : List (Int × V)) (k : Int) :
    List (Int × V) × V :=
  match mapFind m k with
  | some v => (m, v)
  | none => (mapSet m k dflt, dflt)

/-- The static members of `class UI` (skidGUI.h:158) that the engine reads
and writes. -/
structure UI where
  width : Int := 0
  height : Int := 0
  backgroundColor : Nat := 0
  layoutGroups : List (Int × List Button) := []
  layoutTypes : List (Int × WidgetLayoutType) := []
  deriving DecidableEq, Repr

/-- Method `UI::AddWidget` (skidGUI.h:273): `layoutGroups[layoutGroup]` is read
twice, once for the size and once for the `push_back`. -/
def UI.AddWidget (ui : UI) (widget : Button) (layoutGroup : Int) : UI :=
  let g1 := mapIndex [] ui.layoutGroups layoutGroup
  let widget1 := { widget with id := (g1.2.length : Int) }
  let g2 := mapIndex [] g1.1 layoutGroup
  { ui with layoutGroups := mapSet g2.1 layoutGroup (g2.2 ++ [widget1]) }

/-- Method `UI::SetLayoutType` (skidGUI.h:279). -/
def UI.SetLayoutType (ui : UI) (layoutGroup : Int) (type : WidgetLayoutType) : UI :=
  { ui with layoutTypes := mapSet ui.layoutTypes layoutGroup type }

/-- The `switch (type)` of `UI::OnPhysicsUpdate` (skidGUI.h:260). -/
def layoutWidget (type : WidgetLayoutType) (width max curr : Int) (widget : Button) :
    Button :=
  match type with
  | WidgetLayoutType.HorizontalFill =>
    { widget with
        x := 10 + (Int.tdiv width max) * curr
        width := Int.tdiv width max - 20 }
  | WidgetLayoutType.None => widget

/-- The inner loop of `UI::OnPhysicsUpdate` (skidGUI.h:259) from position
`curr` on. -/
def physicsGroup (hwnd : Host) (type : WidgetLayoutType) (width max : Int) :
    Int → List Button → List Button × List ButtonEvent
  | _, [] => ([], [])
  | curr, widget :: rest =>
    let r := (layoutWidget type width max curr widget).physics hwnd
    let rs := physicsGroup hwnd type width max (curr + 1) rest
    (r.1 :: rs.1, r.2 ++ rs.2)

/-- The outer loop of `UI::OnPhysicsUpdate` (skidGUI.h:255) over the groups
in key order; `layoutTypes[group]` may insert a `None` entry. -/
def physicsGroups (hwnd : Host) (width : Int) :
    List (Int × List Button) → List (Int × WidgetLayoutType) →
      (List (Int × List Button) × List (Int × WidgetLayoutType)) × List ButtonEvent
  | [], types => (([], types), [])
  | (group, index_list) :: rest, types =>
    let max : Int := (index_list.length : Int)
    let t := mapIndex WidgetLayoutType.None types group
    let r := physicsGroup hwnd t.2 width max 0 index_list
    let rs := physicsGroups hwnd width rest t.1
    (((group, r.1) :: rs.1.1, rs.1.2), r.2 ++ rs.2)

/-- Method `UI::OnPhysicsUpdate` (skidGUI.h:254). -/
def UI.OnPhysicsUpdate (ui : UI) (hwnd : Host) : UI × List ButtonEvent :=
  let r := physicsGroups hwnd ui.width ui.layoutGroups ui.layoutTypes
  ({ ui with layoutGroups := r.1.1, layoutTypes := r.1.2 }, r.2)

/-- The messages `UI::WndProc` distinguishes. -/
inductive Message where
  | WM_SIZE
  | WM_PAINT
  | WM_DESTROY
  | Other
  deriving DecidableEq, Repr

/-- Method `UI::WndProc` (skidGUI.h:287). The pass of `OnPhysicsUpdate` comes
first, for every message. Painting (`UI::OnUpdate`), `PostQuitMessage` and
`DefWindowProc` leave the engine state as it is. -/
def UI.WndProc (ui : UI) (hwnd : Host) (message : Message) : UI × List ButtonEvent :=
  let r := ui.OnPhysicsUpdate hwnd
  match message with
  | Message.WM_SIZE =>
    let window_size := GetClientRect hwnd
    ({ r.1 with
        width := window_size.right - window_size.left
        height := window_size.bottom - window_size.top }, r.2)
  | Message.WM_PAINT => r
  | Message.WM_DESTROY => r
  | Message.Other => r

/-- Method `UI::Init` (skidGUI.h:317), as far as the engine state goes. -/
def UI.Init (ui : UI) (width height : Int) : UI :=
  { ui with width := width, height := height }

/-- A call of the registry interface. -/
inductive Call where
  | AddWidget (widget : Button) (layoutGroup : Int)
  | SetLayoutType (layoutGroup : Int) (type : WidgetLayoutType)
  deriving DecidableEq, Repr

/-- Run one registry call. -/
def UI.call (ui : UI) : Call → UI
  | Call.AddWidget widget layoutGroup => ui.AddWidget widget layoutGroup
  | Call.SetLayoutType layoutGroup type => ui.SetLayoutType layoutGroup type

/-- Run a sequence of registry calls, first to last. -/
def UI.calls (ui : UI) (cs : List Call) : UI := cs.foldl UI.call ui

/-- The registry before any call: the static initialisers of skidGUI.h:184. -/
def UI.empty : UI := {}

/-- The layout mode the next pass reads for a group: `layoutTypes[group]`. -/
def UI.layoutType (ui : UI) (group : Int) : WidgetLayoutType :=
  (mapIndex WidgetLayoutType.None ui.layoutTypes group).2

/-- The primary button is sampled as down: `GetAsyncKeyState(MK_LBUTTON) < 0`. -/
def Host.down (hwnd : Host) : Bool := decide (GetAsyncKeyState hwnd < 0)

/-- The pointer is inside the bounds of `b`. -/
def Button.inside (b : Button) (hwnd : Host) : Bool :=
  IsPointInsideRect (GetMousePositionInWindow hwnd) b.x b.y b.width b.height

/-- The kinds of a list of delivered events. -/
def kinds (evs : List ButtonEvent) : List ButtonEventType := evs.map ButtonEvent.type

/-- Run interaction passes one after another on one button, one host
snapshot per pass; returns the button after the last pass and the events
delivered per pass. -/
def Button.passes (b : Button) : List Host → Button × List (List ButtonEvent)
  | [] => (b, [])
  | hwnd :: rest =>
    let r := b.physics hwnd
    let rs := Button.passes r.1 rest
    (rs.1, r.2 :: rs.2)

/-- The buttons after each of a run of interaction passes on one button. -/
def Button.states (b : Button) : List Host → List Button
  | [] => []
  | hwnd :: rest => (b.physics hwnd).1 :: Button.states (b.physics hwnd).1 rest

/-- The interaction state `(hovered, pressed)` of a button. -/
def Button.flags (b : Button) : Bool × Bool := (b.mouseInside, b.mousePressed)

/-- The button of `examples/Simple Buttons/main.cpp`, with its callback. -/
def exButton : Button :=
  { x := 10, y := 10, width := 200, height := 50, label := "Press Me!",
    fontColor := 0xFF000000, color := 0xFFC8C8C8, borderSize := 2,
    borderColor := 0xFF1E1E1E, clbk := some 1 }

/-- The same button with `clbk = NULL`. -/
def exButtonNoClbk : Button := { exButton with clbk := none }

/-- The example button while hovered and pressed. -/
def exButtonPressed : Button := { exButton with mouseInside := true, mousePressed := true }

/-- A host snapshot with the cursor at `(px, py)`, the key state `key` and
an 800 by 600 client area. -/
def hostAt (px py key : Int) : Host :=
  { cursor := { x := px, y := py }, lbutton := key,
    client := { left := 0, top := 0, right := 800, bottom := 600 } }

/-- Cursor over the example button, primary button down (`0x8000` as `SHORT`). -/
def hostInDown : Host := hostAt 50 30 (-32768)

/-- Cursor over the example button, primary button up. -/
def hostInUp : Host := hostAt 50 30 0

/-- Cursor away from the example button, primary button up. -/
def hostOutUp : Host := hostAt 500 300 0

/-- The registry `examples/Simple Buttons/main.cpp` builds: the button three
times in group 1, that group set to `HorizontalFill`, an 800 by 600 window. -/
def exUI : UI :=
  ((((UI.empty.AddWidget exButton 1).AddWidget exButton 1).AddWidget exButton 1).SetLayoutType
    1 WidgetLayoutType.HorizontalFill).Init 800 600

/-- A host snapshot after the window was resized to a 400 by 600 client area. -/
def hostResized : Host :=
  { hostOutUp with client := { left := 0, top := 0, right := 400, bottom := 600 } }

/-- The `(x, width)` of every widget of every group, in order. -/
def UI.spans (ui : UI) : List (List (Int × Int)) :=
  ui.layoutGroups.map (fun e => e.2.map (fun w => (w.x, w.width)))

/-! ## The interaction pass in closed form -/

/-- The callback pointer decides alone what `CallEvent` delivers. -/
theorem CallEvent_eq (b : Button) (type : ButtonEventType) (hwnd : Host) :
    b.CallEvent type hwnd =
      if b.clbk.isSome then
        [{ type := type, mouseX := hwnd.cursor.x, mouseY := hwnd.cursor.y }]
      else [] := by
  unfold Button.CallEvent GetMousePositionInWindow
  cases b.clbk <;> simp

/-- The button after a pass: `mouseInside` is the hit test; `mousePressed`
follows the primary button while the pointer is inside and is kept while it
is outside; nothing else is written. -/
theorem physics_fst (b : Button) (hwnd : Host) :
    (b.physics hwnd).1 =
      { b with
          mouseInside := b.inside hwnd
          mousePressed := if b.inside hwnd then hwnd.down else b.mousePressed } := by
  obtain ⟨id, x, y, w, h, lb, fn, fs, fc, c, bc, bs, cb, mi, mp⟩ := b
  simp only [Button.physics, Button.inside, Host.down]
  by_cases hk : GetAsyncKeyState hwnd < 0
  · have hk2 : ¬ (GetAsyncKeyState hwnd ≥ 0) := by omega
    cases mi <;> cases mp <;>
      cases hins : IsPointInsideRect (GetMousePositionInWindow hwnd) x y w h <;>
      simp [hk, hk2, hins]
  · have hk2 : GetAsyncKeyState hwnd ≥ 0 := by omega
    cases mi <;> cases mp <;>
      cases hins : IsPointInsideRect (GetMousePositionInWindow hwnd) x y w h <;>
      simp [hk, hk2, hins]

/-- The events of a pass: an enter or leave event when the hit test differs
from `mouseInside`, then a click when the pointer is inside, the primary
button is down and the button is not pressed yet. -/
theorem physics_snd (b : Button) (hwnd : Host) :
    (b.physics hwnd).2 =
      (if b.mouseInside = b.inside hwnd then []
        else b.CallEvent
          (if b.mouseInside then ButtonEventType.OnMouseLeave
            else ButtonEventType.OnMouseEnter) hwnd) ++
      (if b.inside hwnd && hwnd.down && !b.mousePressed then
          b.CallEvent ButtonEventType.OnClick hwnd
        else []) := by
  obtain ⟨id, x, y, w, h, lb, fn, fs, fc, c, bc, bs, cb, mi, mp⟩ := b
  simp only [Button.physics, Button.inside, Host.down, CallEvent_eq]
  by_cases hk : GetAsyncKeyState hwnd < 0
  · have hk2 : ¬ (GetAsyncKeyState hwnd ≥ 0) := by omega
    cases mi <;> cases mp <;>
      cases hins : IsPointInsideRect (GetMousePositionInWindow hwnd) x y w h <;>
      simp [hk, hk2, hins]
  · have hk2 : GetAsyncKeyState hwnd ≥ 0 := by omega
    cases mi <;> cases mp <;>
      cases hins : IsPointInsideRect (GetMousePositionInWindow hwnd) x y w h <;>
      simp [hk, hk2, hins]

/-- A pass writes neither the geometry nor the id of a button. -/
theorem physics_frame (b : Button) (hwnd : Host) :
    (b.physics hwnd).1.id = b.id ∧ (b.physics hwnd).1.x = b.x ∧
    (b.physics hwnd).1.y = b.y ∧ (b.physics hwnd).1.width = b.width ∧
    (b.physics hwnd).1.height = b.height := by
  rw [physics_fst]
  exact ⟨rfl, rfl, rfl, rfl, rfl⟩

/-! ## The maps -/

theorem mapFind_mapSet_self {V : Type} (m : List (Int × V)) (k : Int) (v : V) :
    mapFind (mapSet m k v) k = some v := by
  induction m with
  | nil => simp [mapSet, mapFind]
  | cons e rest ih =>
    obtain ⟨k1, v1⟩ := e
    unfold mapSet
    split_ifs with h1 h2
    · simp [mapFind]
    · simp [mapFind]
    · simp [mapFind, h2, ih]

theorem mapFind_mapSet_other {V : Type} (m : List (Int × V)) (k k2 : Int) (v : V)
    (hne : k2 ≠ k) : mapFind (mapSet m k v) k2 = mapFind m k2 := by
  induction m with
  | nil => simp [mapSet, mapFind, hne]
  | cons e rest ih =>
    obtain ⟨k1, v1⟩ := e
    unfold mapSet
    split_ifs with h1 h2
    · simp [mapFind, hne]
    · subst h2
      simp [mapFind, hne]
    · simp [mapFind, ih]

theorem mapSet_mapSet {V : Type} (m : List (Int × V)) (k : Int) (v v2 : V) :
    mapSet (mapSet m k v) k v2 = mapSet m k v2 := by
  induction m with
  | nil => simp [mapSet]
  | cons e rest ih =>
    obtain ⟨k1, v1⟩ := e
    by_cases h1 : k < k1
    · simp [mapSet, h1]
    · by_cases h2 : k = k1
      · simp [mapSet, h2]
      · simp [mapSet, h1, h2, ih]

/-- Every entry of a map after a store is the stored one or was there before. -/
theorem mem_mapSet {V : Type} (m : List (Int × V)) (k : Int) (v : V) (e : Int × V)
    (he : e ∈ mapSet m k v) : e = (k, v) ∨ e ∈ m := by
  induction m with
  | nil => simpa [mapSet] using he
  | cons e1 rest ih =>
    obtain ⟨k1, v1⟩ := e1
    unfold mapSet at he
    split_ifs at he with h1 h2
    · simpa using he
    · rcases List.mem_cons.1 he with h | h
      · exact Or.inl h
      · exact Or.inr (List.mem_cons_of_mem _ h)
    · rcases List.mem_cons.1 he with h | h
      · exact Or.inr (h ▸ List.mem_cons_self _ _)
      · rcases ih h with h3 | h3
        · exact Or.inl h3
        · exact Or.inr (List.mem_cons_of_mem _ h3)

/-- What `find` returns is an entry of the map. -/
theorem mem_of_mapFind {V : Type} (m : List (Int × V)) (k : Int) (v : V)
    (h : mapFind m k = some v) : (k, v) ∈ m := by
  induction m with
  | nil => simp [mapFind] at h
  | cons e rest ih =>
    obtain ⟨k1, v1⟩ := e
    unfold mapFind at h
    split_ifs at h with h1
    · subst h1
      simp only [Option.some.injEq] at h
      subst h
      exact List.mem_cons_self _ _
    · exact List.mem_cons_of_mem _ (ih h)

/-- The value `operator[]` returns is the stored one, or the default. -/
theorem mapIndex_snd {V : Type} (dflt : V) (m : List (Int × V)) (k : Int) :
    (mapIndex dflt m k).2 = (mapFind m k).getD dflt := by
  unfold mapIndex
  cases mapFind m k <;> rfl

/-- An access with `operator[]` changes the value read under no key. -/
theorem mapIndex_mapIndex {V : Type} (dflt : V) (m : List (Int × V)) (k k2 : Int) :
    (mapIndex dflt (mapIndex dflt m k).1 k2).2 = (mapIndex dflt m k2).2 := by
  rw [mapIndex_snd, mapIndex_snd]
  unfold mapIndex
  cases h : mapFind m k with
  | some v => rfl
  | none =>
    by_cases hk : k2 = k
    · subst hk
      simp [mapFind_mapSet_self, h]
    · simp [mapFind_mapSet_other _ _ _ _ hk]

/-! ## The registry and the layout pass in closed form -/

/-- Method `AddWidget` appends the widget, its id set to the size of the group,
to the group it names. -/
theorem AddWidget_layoutGroups (ui : UI) (widget : Button) (g : Int) :
    (ui.AddWidget widget g).layoutGroups =
      mapSet ui.layoutGroups g
        ((mapFind ui.layoutGroups g).getD [] ++
          [{ widget with id := (((mapFind ui.layoutGroups g).getD []).length : Int) }]) := by
  unfold UI.AddWidget mapIndex
  cases h : mapFind ui.layoutGroups g with
  | some l => simp [h]
  | none => simp [mapFind_mapSet_self, mapSet_mapSet]

/-- The widgets of a group after the inner loop, position by position. -/
theorem physicsGroup_getElem? (hwnd : Host) (type : WidgetLayoutType) (width max : Int)
    (ws : List Button) (curr : Int) (i : Nat) :
    (physicsGroup hwnd type width max curr ws).1[i]? =
      (ws[i]?).map (fun w => ((layoutWidget type width max (curr + i) w).physics hwnd).1) := by
  induction ws generalizing curr i with
  | nil => simp [physicsGroup]
  | cons w rest ih =>
    cases i with
    | zero => simp [physicsGroup]
    | succ n =>
      simp only [physicsGroup, List.getElem?_cons_succ, ih]
      have : curr + 1 + (n : Int) = curr + ((n + 1 : Nat) : Int) := by push_cast; ring
      rw [this]

theorem physicsGroup_length (hwnd : Host) (type : WidgetLayoutType) (width max : Int)
    (ws : List Button) (curr : Int) :
    (physicsGroup hwnd type width max curr ws).1.length = ws.length := by
  induction ws generalizing curr with
  | nil => simp [physicsGroup]
  | cons w rest ih => simp [physicsGroup, ih]

/-- The groups after the outer loop: each keeps its key and is laid out with
the mode `layoutTypes[group]` read from the map the pass started with. -/
theorem physicsGroups_groups (hwnd : Host) (width : Int) (gs : List (Int × List Button))
    (types : List (Int × WidgetLayoutType)) :
    (physicsGroups hwnd width gs types).1.1 =
      gs.map (fun e => (e.1,
        (physicsGroup hwnd (mapIndex WidgetLayoutType.None types e.1).2 width
          (e.2.length : Int) 0 e.2).1)) := by
  induction gs generalizing types with
  | nil => simp [physicsGroups]
  | cons e rest ih =>
    obtain ⟨g, ws⟩ := e
    simp only [physicsGroups, List.map_cons, ih, mapIndex_mapIndex]

/-- The outer loop changes the mode read under no key. -/
theorem physicsGroups_types (hwnd : Host) (width : Int) (gs : List (Int × List Button))
    (types : List (Int × WidgetLayoutType)) (k : Int) :
    (mapIndex WidgetLayoutType.None (physicsGroups hwnd width gs types).1.2 k).2 =
      (mapIndex WidgetLayoutType.None types k).2 := by
  induction gs generalizing types with
  | nil => simp [physicsGroups]
  | cons e rest ih =>
    obtain ⟨g, ws⟩ := e
    simp only [physicsGroups, ih, mapIndex_mapIndex]

/-- A group of the registry after a pass of `OnPhysicsUpdate`, widget by
widget: the layout switch, then the interaction pass. -/
theorem OnPhysicsUpdate_group (ui : UI) (hwnd : Host) (j : Nat) (g : Int)
    (ws : List Button) (hg : ui.layoutGroups[j]? = some (g, ws)) :
    ∃ ws2, (ui.OnPhysicsUpdate hwnd).1.layoutGroups[j]? = some (g, ws2) ∧
      ws2.length = ws.length ∧
      ∀ i : Nat, ws2[i]? = (ws[i]?).map (fun w =>
        ((layoutWidget (ui.layoutType g) ui.width (ws.length : Int) (i : Int) w).physics
          hwnd).1) := by
  refine ⟨(physicsGroup hwnd (ui.layoutType g) ui.width (ws.length : Int) 0 ws).1,
    ?_, physicsGroup_length _ _ _ _ _ _, ?_⟩
  · simp only [UI.OnPhysicsUpdate, physicsGroups_groups, List.getElem?_map, hg,
      Option.map_some', UI.layoutType]
  · intro i
    rw [physicsGroup_getElem?]
    simp

/-- The mode read for a group is the same before and after a pass. -/
theorem OnPhysicsUpdate_layoutType (ui : UI) (hwnd : Host) (g : Int) :
    (ui.OnPhysicsUpdate hwnd).1.layoutType g = ui.layoutType g := by
  simp only [UI.layoutType, UI.OnPhysicsUpdate, physicsGroups_types]

/-- A `HorizontalFill` group after a pass of `OnPhysicsUpdate`: every widget
sits in its slot. -/
theorem OnPhysicsUpdate_fill (ui : UI) (hwnd : Host) (j : Nat) (g : Int)
    (ws : List Button) (hg : ui.layoutGroups[j]? = some (g, ws))
    (ht : ui.layoutType g = WidgetLayoutType.HorizontalFill) :
    ∃ ws2, (ui.OnPhysicsUpdate hwnd).1.layoutGroups[j]? = some (g, ws2) ∧
      ws2.length = ws.length ∧
      ∀ (i : Nat) (w : Button), ws2[i]? = some w →
        w.x = 10 + Int.tdiv ui.width (ws.length : Int) * (i : Int) ∧
        w.width = Int.tdiv ui.width (ws.length : Int) - 20 := by
  obtain ⟨ws2, h1, h2, h3⟩ := OnPhysicsUpdate_group ui hwnd j g ws hg
  refine ⟨ws2, h1, h2, ?_⟩
  intro i w hw
  rw [h3 i, ht] at hw
  cases hwi : ws[i]? with
  | none => simp [hwi] at hw
  | some w0 =>
    simp only [hwi, Option.map_some', Option.some.injEq] at hw
    subst hw
    obtain ⟨-, hx, -, hwd, -⟩ := physics_frame
      (layoutWidget WidgetLayoutType.HorizontalFill ui.width (ws.length : Int) (i : Int) w0) hwnd
    rw [hx, hwd]
    exact ⟨rfl, rfl⟩

/-- What `WndProc` leaves in the registry maps is what its pass of
`OnPhysicsUpdate` left there, whatever the message. -/
theorem WndProc_maps (ui : UI) (hwnd : Host) (m : Message) :
    (ui.WndProc hwnd m).1.layoutGroups = (ui.OnPhysicsUpdate hwnd).1.layoutGroups ∧
    (ui.WndProc hwnd m).1.layoutTypes = (ui.OnPhysicsUpdate hwnd).1.layoutTypes := by
  cases m <;> exact ⟨rfl, rfl⟩

/-- One registry call keeps the ids of every group equal to the positions. -/
theorem call_ids (ui : UI) (c : Call)
    (h : ∀ g ws, (g, ws) ∈ ui.layoutGroups →
      ∀ (i : Nat) (w : Button), ws[i]? = some w → w.id = (i : Int)) :
    ∀ g ws, (g, ws) ∈ (ui.call c).layoutGroups →
      ∀ (i : Nat) (w : Button), ws[i]? = some w → w.id = (i : Int) := by
  cases c with
  | SetLayoutType g0 t => exact h
  | AddWidget widget g0 =>
    intro g ws hmem i w hw
    simp only [UI.call, AddWidget_layoutGroups] at hmem
    rcases mem_mapSet _ _ _ _ hmem with heq | hold
    · simp only [Prod.mk.injEq] at heq
      obtain ⟨-, rfl⟩ := heq
      have hprev : ∀ (i : Nat) (w : Button),
          ((mapFind ui.layoutGroups g0).getD [])[i]? = some w → w.id = (i : Int) := by
        cases hf : mapFind ui.layoutGroups g0 with
        | none => simp
        | some l => exact h g0 l (mem_of_mapFind _ _ _ hf)
      by_cases hi : i < ((mapFind ui.layoutGroups g0).getD []).length
      · rw [List.getElem?_append_left hi] at hw
        exact hprev i w hw
      · have hi2 : ((mapFind ui.layoutGroups g0).getD []).length ≤ i := Nat.le_of_not_lt hi
        rw [List.getElem?_append_right hi2] at hw
        cases hd : i - ((mapFind ui.layoutGroups g0).getD []).length with
        | zero =>
          simp only [hd, List.getElem?_cons_zero, Option.some.injEq] at hw
          subst hw
          have : i = ((mapFind ui.layoutGroups g0).getD []).length := by omega
          simp only
          rw [← this]
        | succ n => simp [hd] at hw
    · exact h g ws hold i w hw

/-- A sequence of registry calls keeps the ids of every group equal to the
positions. -/
theorem calls_ids (cs : List Call) (ui : UI)
    (h : ∀ g ws, (g, ws) ∈ ui.layoutGroups →
      ∀ (i : Nat) (w : Button), ws[i]? = some w → w.id = (i : Int)) :
    ∀ g ws, (g, ws) ∈ (ui.calls cs).layoutGroups →
      ∀ (i : Nat) (w : Button), ws[i]? = some w → w.id = (i : Int) := by
  induction cs generalizing ui with
  | nil => exact h
  | cons c rest ih => exact ih (ui.call c) (call_ids ui c h)

/-! ## Claims about `Button::physics` -/

/-- C1, as stated, fails: an idle button with a callback whose bounds the
pointer enters while the primary button is already down receives two events
in one pass, MouseEnter and then Click. -/
theorem C1_counterexample :
    exButton.clbk.isSome = true ∧
    kinds (exButton.physics hostInDown).2 =
      [ButtonEventType.OnMouseEnter, ButtonEventType.OnClick] ∧
    ¬ (∀ (b : Button) (hwnd : Host), b.clbk.isSome = true →
        (b.physics hwnd).2.length ≤ 1) := by
  have h : kinds (exButton.physics hostInDown).2 =
      [ButtonEventType.OnMouseEnter, ButtonEventType.OnClick] := by decide
  refine ⟨rfl, h, fun hall => ?_⟩
  have h2 := hall exButton hostInDown rfl
  have h3 : (exButton.physics hostInDown).2.length = 2 := by decide
  omega

/-- C1, amended: one pass on a button with a callback delivers at most one
event, except when the button is neither hovered nor pressed, the pointer is
inside its bounds and the primary button is down; then it delivers exactly
two, MouseEnter followed by Click. No delivered event has the kind NoEvent. -/
theorem C1_physics_events (b : Button) (hwnd : Host) (hc : b.clbk.isSome = true) :
    ((b.mouseInside = false ∧ b.mousePressed = false ∧ b.inside hwnd = true ∧
        hwnd.down = true) →
      kinds (b.physics hwnd).2 =
        [ButtonEventType.OnMouseEnter, ButtonEventType.OnClick]) ∧
    (¬ (b.mouseInside = false ∧ b.mousePressed = false ∧ b.inside hwnd = true ∧
        hwnd.down = true) →
      (b.physics hwnd).2.length ≤ 1) ∧
    (∀ e ∈ (b.physics hwnd).2, e.type ≠ ButtonEventType.NoEvent) := by
  rw [physics_snd]
  simp only [CallEvent_eq, hc, kinds]
  cases b.mouseInside <;> cases b.mousePressed <;> cases b.inside hwnd <;>
    cases hwnd.down <;> simp

/-- C1, amended, at the example button: the pass that enters with the
button down delivers MouseEnter then Click, and a pass on the hovered button
delivers at most one event. -/
theorem C1_physics_events_witness :
    kinds (exButton.physics hostInDown).2 =
      [ButtonEventType.OnMouseEnter, ButtonEventType.OnClick] ∧
    ((exButton.physics hostInDown).1.physics hostOutUp).2.length ≤ 1 :=
  ⟨(C1_physics_events exButton hostInDown rfl).1 (by decide),
   (C1_physics_events (exButton.physics hostInDown).1 hostOutUp rfl).2.1 (by decide)⟩

/-- C2, as stated, fails for a button without a callback: its pressed flag
is false and the pointer stays inside, yet the down, held and up passes
deliver nothing, so no Click is delivered on the down pass. -/
theorem C2_counterexample :
    exButtonNoClbk.mousePressed = false ∧
    exButtonNoClbk.inside hostInDown = true ∧ exButtonNoClbk.inside hostInUp = true ∧
    hostInDown.down = true ∧ hostInUp.down = false ∧
    (exButtonNoClbk.passes [hostInDown, hostInDown, hostInUp]).2 = [[], [], []] ∧
    ¬ (∀ (b : Button) (h1 h2 h3 : Host), b.mousePressed = false →
        b.inside h1 = true → b.inside h2 = true → b.inside h3 = true →
        h1.down = true → h2.down = true → h3.down = false →
        (b.passes [h1, h2, h3]).2.map
          (fun evs => (kinds evs).count ButtonEventType.OnClick) = [1, 0, 0]) := by
  have hlog : (exButtonNoClbk.passes [hostInDown, hostInDown, hostInUp]).2 =
      [[], [], []] := by decide
  refine ⟨rfl, by decide, by decide, by decide, by decide, hlog, fun hall => ?_⟩
  have h := hall exButtonNoClbk hostInDown hostInDown hostInUp rfl (by decide)
    (by decide) (by decide) (by decide) (by decide) (by decide)
  rw [hlog] at h
  revert h
  decide

/-- C2, amended: for every button whose pressed flag is false, three passes
with the pointer inside its bounds and the primary button down, down, up
deliver nothing on the held pass and nothing on the up pass, and leave the
button hovered and not pressed. The first pass delivers exactly one Click
(after a MouseEnter when the button was not hovered yet) when the button has a
callback set, and nothing when its callback is null; so a button with a
callback receives exactly one Click in total, on the down pass. -/
theorem C2_click_edge (b : Button) (h1 h2 h3 : Host)
    (hp : b.mousePressed = false)
    (hi1 : b.inside h1 = true) (hi2 : b.inside h2 = true) (hi3 : b.inside h3 = true)
    (hd1 : h1.down = true) (hd2 : h2.down = true) (hd3 : h3.down = false) :
    (b.passes [h1, h2, h3]).2.map
        (fun evs => (kinds evs).count ButtonEventType.OnClick) =
      [if b.clbk.isSome then 1 else 0, 0, 0] ∧
    (b.clbk.isSome = true →
      kinds ((b.passes [h1, h2, h3]).2.getD 0 []) =
        (if b.mouseInside then [ButtonEventType.OnClick]
          else [ButtonEventType.OnMouseEnter, ButtonEventType.OnClick])) ∧
    (b.clbk = none → (b.passes [h1, h2, h3]).2.getD 0 [] = []) ∧
    (b.passes [h1, h2, h3]).2.getD 1 [] = [] ∧
    (b.passes [h1, h2, h3]).2.getD 2 [] = [] ∧
    (b.passes [h1, h2, h3]).1.mouseInside = true ∧
    (b.passes [h1, h2, h3]).1.mousePressed = false := by
  have e1 : (b.physics h1).1 = { b with mouseInside := true, mousePressed := true } := by
    rw [physics_fst]; simp [hi1, hd1]
  have i2 : (b.physics h1).1.inside h2 = true := by rw [e1]; exact hi2
  have e2 : ((b.physics h1).1.physics h2).1 = (b.physics h1).1 := by
    rw [physics_fst, i2, e1]; simp [hd2]
  have i3 : (b.physics h1).1.inside h3 = true := by rw [e1]; exact hi3
  have l1 : kinds (b.physics h1).2 =
      (if b.clbk.isSome then
        (if b.mouseInside then [ButtonEventType.OnClick]
          else [ButtonEventType.OnMouseEnter, ButtonEventType.OnClick])
        else []) := by
    rw [physics_snd]
    simp only [CallEvent_eq, kinds, hi1, hd1, hp]
    cases b.mouseInside <;> cases b.clbk <;> simp
  have l1n : b.clbk = none → (b.physics h1).2 = [] := by
    intro hn
    rw [physics_snd]
    simp [CallEvent_eq, hn]
  have l2 : ((b.physics h1).1.physics h2).2 = [] := by
    rw [physics_snd, i2]; simp [e1]
  have l3 : ((b.physics h1).1.physics h3).2 = [] := by
    rw [physics_snd, i3]; simp [e1, hd3]
  have e3 : ((b.physics h1).1.physics h3).1 =
      { b with mouseInside := true, mousePressed := false } := by
    rw [physics_fst, i3, e1]; simp [hd3]
  have p2 : (b.passes [h1, h2, h3]).2 = [(b.physics h1).2, [], []] := by
    simp only [Button.passes, e2, l2, l3]
  have p1 : (b.passes [h1, h2, h3]).1 =
      { b with mouseInside := true, mousePressed := false } := by
    simp only [Button.passes, e2, e3]
  rw [p2, p1]
  refine ⟨?_, ?_, l1n, rfl, rfl, rfl, rfl⟩
  · simp only [List.map, l1]
    cases b.mouseInside <;> cases b.clbk <;> simp [kinds]
  · intro hc
    simp only [List.getD_cons_zero, l1, hc, if_true]

/-- C2, amended, at the example button, with its callback and without it:
one Click on the down pass against none, the same hovered state after the
release. -/
theorem C2_click_edge_witness :
    ((exButton.passes [hostInDown, hostInDown, hostInUp]).2.map
        (fun evs => (kinds evs).count ButtonEventType.OnClick) = [1, 0, 0] ∧
      (exButton.passes [hostInDown, hostInDown, hostInUp]).1.flags = (true, false)) ∧
    ((exButtonNoClbk.passes [hostInDown, hostInDown, hostInUp]).2.map
        (fun evs => (kinds evs).count ButtonEventType.OnClick) = [0, 0, 0] ∧
      (exButtonNoClbk.passes [hostInDown, hostInDown, hostInUp]).1.flags = (true, false)) :=
  have h := C2_click_edge exButton hostInDown hostInDown hostInUp rfl
    (by decide) (by decide) (by decide) (by decide) (by decide) (by decide)
  have k := C2_click_edge exButtonNoClbk hostInDown hostInDown hostInUp rfl
    (by decide) (by decide) (by decide) (by decide) (by decide) (by decide)
  ⟨⟨h.1, Prod.ext h.2.2.2.2.2.1 h.2.2.2.2.2.2⟩, ⟨k.1, Prod.ext k.2.2.2.2.2.1 k.2.2.2.2.2.2⟩⟩

/-- C3: an idle button with a callback, primary button up throughout. A pass
with the pointer inside its bounds delivers exactly one MouseEnter and makes
it hovered; a following pass with the pointer outside delivers exactly one
MouseLeave and returns it to idle, the button being again what it was before
the two passes. Each event carries the cursor position of its pass. -/
theorem C3_hover_transition (b : Button) (h1 h2 : Host) (hc : b.clbk.isSome = true)
    (hm : b.mouseInside = false) (hp : b.mousePressed = false)
    (hu1 : GetAsyncKeyState h1 ≥ 0) (hu2 : GetAsyncKeyState h2 ≥ 0)
    (hin : b.x ≤ h1.cursor.x ∧ h1.cursor.x < b.x + b.width ∧
      b.y ≤ h1.cursor.y ∧ h1.cursor.y < b.y + b.height)
    (hout : ¬ (b.x ≤ h2.cursor.x ∧ h2.cursor.x < b.x + b.width ∧
      b.y ≤ h2.cursor.y ∧ h2.cursor.y < b.y + b.height)) :
    (b.physics h1).2 =
      [{ type := ButtonEventType.OnMouseEnter,
         mouseX := h1.cursor.x, mouseY := h1.cursor.y }] ∧
    (b.physics h1).1.mouseInside = true ∧ (b.physics h1).1.mousePressed = false ∧
    ((b.physics h1).1.physics h2).2 =
      [{ type := ButtonEventType.OnMouseLeave,
         mouseX := h2.cursor.x, mouseY := h2.cursor.y }] ∧
    ((b.physics h1).1.physics h2).1.mouseInside = false ∧
    ((b.physics h1).1.physics h2).1.mousePressed = false ∧
    ((b.physics h1).1.physics h2).1 = b := by
  have hi1 : b.inside h1 = true := by
    simp only [Button.inside, IsPointInsideRect, GetMousePositionInWindow,
      Bool.and_eq_true, decide_eq_true_eq]
    omega
  have hi2 : b.inside h2 = false := by
    rw [← Bool.not_eq_true]
    simp only [Button.inside, IsPointInsideRect, GetMousePositionInWindow,
      Bool.and_eq_true, decide_eq_true_eq]
    omega
  have hd1 : h1.down = false := by simp [Host.down]; omega
  have hd2 : h2.down = false := by simp [Host.down]; omega
  have e1 : (b.physics h1).1 = { b with mouseInside := true, mousePressed := false } := by
    rw [physics_fst]; simp [hi1, hd1]
  have i2 : (b.physics h1).1.inside h2 = false := by rw [e1]; exact hi2
  refine ⟨?_, ?_, ?_, ?_, ?_, ?_, ?_⟩
  · rw [physics_snd]; simp [CallEvent_eq, hc, hm, hi1, hd1]
  · rw [e1]
  · rw [e1]
  · rw [physics_snd, i2]; simp [CallEvent_eq, e1, hc]
  · rw [physics_fst, i2]
  · rw [physics_fst, i2]; simp [e1]
  · rw [physics_fst, i2, e1]
    obtain ⟨id, x, y, w, h, lb, fn, fs, fc, c, bc, bs, cb, mi, mp⟩ := b
    simp only [Bool.false_eq_true, if_false] at hm hp ⊢
    subst hm hp
    rfl

/-- C3 at the example button: the pointer moves onto it and away again. -/
theorem C3_hover_transition_witness :
    kinds (exButton.physics hostInUp).2 = [ButtonEventType.OnMouseEnter] ∧
    (exButton.physics hostInUp).1.mouseInside = true ∧
    kinds ((exButton.physics hostInUp).1.physics hostOutUp).2 =
      [ButtonEventType.OnMouseLeave] ∧
    ((exButton.physics hostInUp).1.physics hostOutUp).1.mouseInside = false :=
  have h := C3_hover_transition exButton hostInUp hostOutUp rfl rfl rfl
    (by decide) (by decide) (by decide) (by decide)
  ⟨by rw [h.1]; rfl, h.2.1, by rw [h.2.2.2.1]; rfl, h.2.2.2.2.1⟩

/-- C7, as stated, fails: a pressed button whose bounds the pointer has left
keeps `pressed = true` through a pass that samples the primary button as up. -/
theorem C7_counterexample :
    exButtonPressed.mousePressed = true ∧ hostOutUp.down = false ∧
    exButtonPressed.inside hostOutUp = false ∧
    (exButtonPressed.physics hostOutUp).1.mousePressed = true ∧
    ¬ (∀ (b : Button) (hwnd : Host), b.mousePressed = true → hwnd.down = false →
        (b.physics hwnd).1.mousePressed = false ∧
        ButtonEventType.OnClick ∉ kinds (b.physics hwnd).2) := by
  have h : (exButtonPressed.physics hostOutUp).1.mousePressed = true := by decide
  refine ⟨rfl, by decide, by decide, h, fun hall => ?_⟩
  have h2 := (hall exButtonPressed hostOutUp rfl (by decide)).1
  rw [h] at h2
  exact Bool.noConfusion h2

/-- C7, amended: for every button with `pressed = true`, a pass that samples
the primary button as up delivers no Click; it leaves `pressed = false` when
the pointer is inside the bounds and leaves `pressed = true` when the pointer
is outside them. -/
theorem C7_release (b : Button) (hwnd : Host) (hp : b.mousePressed = true)
    (hu : hwnd.down = false) :
    ButtonEventType.OnClick ∉ kinds (b.physics hwnd).2 ∧
    (b.inside hwnd = true → (b.physics hwnd).1.mousePressed = false) ∧
    (b.inside hwnd = false → (b.physics hwnd).1.mousePressed = true) := by
  rw [physics_snd, physics_fst]
  simp only [CallEvent_eq, kinds, hp, hu]
  cases b.mouseInside <;> cases b.inside hwnd <;> cases b.clbk <;> simp

/-- C7, amended, at the pressed example button: released over the button the
flag is cleared, released away from it the flag stays. -/
theorem C7_release_witness :
    (exButtonPressed.physics hostInUp).1.mousePressed = false ∧
    (exButtonPressed.physics hostOutUp).1.mousePressed = true :=
  ⟨(C7_release exButtonPressed hostInUp rfl (by decide)).2.1 (by decide),
   (C7_release exButtonPressed hostOutUp rfl (by decide)).2.2 (by decide)⟩

/-- C8: the button after a pass does not depend on the callback pointer (the
pointer itself is carried along unchanged), so `(hovered, pressed)` is the
same with a callback set or null; with a null callback a pass delivers
nothing; and a button without a callback driven from idle through
(inside, up), (inside, down), (inside, up), (outside, up) is hovered, pressed,
hovered, idle after the four passes, with no notification, and is then
again the button it was. -/
theorem C8_callback_independent :
    (∀ (b : Button) (hwnd : Host) (c : Option Nat),
      ({ b with clbk := c }.physics hwnd).1 = { (b.physics hwnd).1 with clbk := c }) ∧
    (∀ (b : Button) (hwnd : Host) (c : Nat),
      ({ b with clbk := some c }.physics hwnd).1.flags =
        ({ b with clbk := none }.physics hwnd).1.flags) ∧
    (∀ (b : Button) (hwnd : Host), b.clbk = none → (b.physics hwnd).2 = []) ∧
    (∀ (b : Button) (h1 h2 h3 h4 : Host), b.clbk = none →
      b.flags = (false, false) →
      b.inside h1 = true → h1.down = false →
      b.inside h2 = true → h2.down = true →
      b.inside h3 = true → h3.down = false →
      b.inside h4 = false → h4.down = false →
      (b.states [h1, h2, h3, h4]).map Button.flags =
          [(true, false), (true, true), (true, false), (false, false)] ∧
        (b.passes [h1, h2, h3, h4]).2 = [[], [], [], []] ∧
        (b.passes [h1, h2, h3, h4]).1 = b) := by
  have hnone : ∀ (b : Button) (hwnd : Host), b.clbk = none → (b.physics hwnd).2 = [] := by
    intro b hwnd hc
    rw [physics_snd]
    simp [CallEvent_eq, hc]
  refine ⟨?_, ?_, hnone, ?_⟩
  · intro b hwnd c
    rw [physics_fst, physics_fst]
    rfl
  · intro b hwnd c
    rw [physics_fst, physics_fst]
    rfl
  · intro b h1 h2 h3 h4 hc hf hi1 hd1 hi2 hd2 hi3 hd3 hi4 hd4
    have hm : b.mouseInside = false := congrArg Prod.fst hf
    have hp : b.mousePressed = false := congrArg Prod.snd hf
    have e1 : (b.physics h1).1 = { b with mouseInside := true, mousePressed := false } := by
      rw [physics_fst]; simp [hi1, hd1]
    have i2 : (b.physics h1).1.inside h2 = true := by rw [e1]; exact hi2
    have e2 : ((b.physics h1).1.physics h2).1 =
        { b with mouseInside := true, mousePressed := true } := by
      rw [physics_fst, i2, e1]; simp [hd2]
    have i3 : ((b.physics h1).1.physics h2).1.inside h3 = true := by rw [e2]; exact hi3
    have e3 : (((b.physics h1).1.physics h2).1.physics h3).1 =
        { b with mouseInside := true, mousePressed := false } := by
      rw [physics_fst, i3, e2]; simp [hd3]
    have i4 : (((b.physics h1).1.physics h2).1.physics h3).1.inside h4 = false := by
      rw [e3]; exact hi4
    have e4 : ((((b.physics h1).1.physics h2).1.physics h3).1.physics h4).1 =
        { b with mouseInside := false, mousePressed := false } := by
      rw [physics_fst, i4, e3]; simp
    have c1 : (b.physics h1).1.clbk = none := by rw [e1]; exact hc
    have c2 : ((b.physics h1).1.physics h2).1.clbk = none := by rw [e2]; exact hc
    have c3 : (((b.physics h1).1.physics h2).1.physics h3).1.clbk = none := by
      rw [e3]; exact hc
    refine ⟨?_, ?_, ?_⟩
    · simp only [Button.states, List.map]
      rw [e4, e3, e2, e1]
      rfl
    · simp only [Button.passes, hnone _ _ hc, hnone _ _ c1, hnone _ _ c2, hnone _ _ c3]
    · simp only [Button.passes]
      rw [e4]
      obtain ⟨id, x, y, w, h, lb, fn, fs, fc, c, bc, bs, cb, mi, mp⟩ := b
      simp only at hm hp
      subst hm hp
      rfl

/-- C8 at the example button without a callback: the full tour from idle
through hovered, pressed and hovered back to idle, nothing delivered. -/
theorem C8_callback_independent_witness :
    (exButtonNoClbk.states [hostInUp, hostInDown, hostInUp, hostOutUp]).map Button.flags =
        [(true, false), (true, true), (true, false), (false, false)] ∧
      (exButtonNoClbk.passes [hostInUp, hostInDown, hostInUp, hostOutUp]).2 =
        [[], [], [], []] ∧
      (exButtonNoClbk.passes [hostInUp, hostInDown, hostInUp, hostOutUp]).1 =
        exButtonNoClbk :=
  C8_callback_independent.2.2.2 exButtonNoClbk hostInUp hostInDown hostInUp hostOutUp
    rfl rfl (by decide) (by decide) (by decide) (by decide) (by decide) (by decide)
    (by decide) (by decide)

/-- C10: a second pass with the same bounds, pointer position and primary
button flag right after a first one delivers no event and leaves the button,
so also `(hovered, pressed)`, exactly as the first pass left it. -/
theorem C10_physics_idempotent (b : Button) (h1 h2 : Host)
    (hcur : h2.cursor = h1.cursor) (hkey : h2.down = h1.down) :
    ((b.physics h1).1.physics h2).2 = [] ∧
    ((b.physics h1).1.physics h2).1 = (b.physics h1).1 ∧
    ((b.physics h1).1.physics h2).1.flags = (b.physics h1).1.flags := by
  have hi : ∀ c : Button, c.inside h2 = c.inside h1 := by
    intro c
    simp only [Button.inside, GetMousePositionInWindow, hcur]
  have e1 : (b.physics h1).1 =
      { b with
          mouseInside := b.inside h1
          mousePressed := if b.inside h1 then h1.down else b.mousePressed } :=
    physics_fst b h1
  have i2 : (b.physics h1).1.inside h2 = b.inside h1 := by
    rw [hi, e1]; rfl
  have hst : ((b.physics h1).1.physics h2).1 = (b.physics h1).1 := by
    rw [physics_fst, i2, hkey, e1]
    cases b.inside h1 <;> simp
  refine ⟨?_, hst, by rw [hst]⟩
  rw [physics_snd, i2, hkey, e1]
  cases b.inside h1 <;> cases h1.down <;> simp

/-- C10 at the example button: holding the primary button over it through a
second pass delivers nothing more, and the resize of the client area between
the passes plays no part. -/
theorem C10_physics_idempotent_witness :
    ((exButton.physics hostInDown).1.physics
        { hostInDown with client := { left := 0, top := 0, right := 640, bottom := 480 } }).2
      = [] ∧
    kinds (exButton.physics hostInDown).2 =
      [ButtonEventType.OnMouseEnter, ButtonEventType.OnClick] :=
  ⟨(C10_physics_idempotent exButton hostInDown
      { hostInDown with client := { left := 0, top := 0, right := 640, bottom := 480 } }
      rfl rfl).1, by decide⟩

/-! ## Claims about the layout pass -/

/-- C4: after one pass of `UI::OnPhysicsUpdate`, in every group whose layout
mode is `HorizontalFill` and that holds `N` widgets, the widget at position
`i` has `x = 10 + (W / N) * i` and `width = (W / N) - 20`, with `W` the
surface width and `/` the truncating division, whatever `x` and `width` it
had before. This holds for every `W`, so for every `W ≥ 0`, and the group
keeps its key, its place and its `N` widgets. -/
theorem C4_horizontal_fill (ui : UI) (hwnd : Host) (j : Nat) (g : Int)
    (ws : List Button) (hg : ui.layoutGroups[j]? = some (g, ws))
    (ht : ui.layoutType g = WidgetLayoutType.HorizontalFill) :
    ∃ ws2, (ui.OnPhysicsUpdate hwnd).1.layoutGroups[j]? = some (g, ws2) ∧
      ws2.length = ws.length ∧
      ∀ (i : Nat) (w : Button), ws2[i]? = some w →
        w.x = 10 + Int.tdiv ui.width (ws.length : Int) * (i : Int) ∧
        w.width = Int.tdiv ui.width (ws.length : Int) - 20 :=
  OnPhysicsUpdate_fill ui hwnd j g ws hg ht

/-- C4 at the registry of the example program: three buttons on an 800 wide
surface get the slots `(10, 246)`, `(276, 246)`, `(542, 246)`. -/
theorem C4_horizontal_fill_witness :
    (∃ ws2, (exUI.OnPhysicsUpdate hostOutUp).1.layoutGroups[0]? = some (1, ws2) ∧
      ws2.length = 3 ∧
      ∀ (i : Nat) (w : Button), ws2[i]? = some w →
        w.x = 10 + Int.tdiv 800 3 * (i : Int) ∧ w.width = Int.tdiv 800 3 - 20) ∧
    (exUI.OnPhysicsUpdate hostOutUp).1.spans = [[(10, 246), (276, 246), (542, 246)]] :=
  ⟨C4_horizontal_fill exUI hostOutUp 0 1
      [{ exButton with id := 0 }, { exButton with id := 1 }, { exButton with id := 2 }]
      (by decide) (by decide),
    by decide⟩

/-- C6: one pass of `UI::OnPhysicsUpdate` keeps every group in its place with
its key and its number of widgets, and leaves `y` and `height` of every widget
unchanged whatever the mode of its group; in a group whose mode is `None` it
leaves `x` and `width` unchanged too. A group for which `SetLayoutType` was
never called reads as `None`. -/
theorem C6_geometry_frame (ui : UI) (hwnd : Host) (j : Nat) (g : Int)
    (ws : List Button) (hg : ui.layoutGroups[j]? = some (g, ws)) :
    (ui.OnPhysicsUpdate hwnd).1.layoutGroups.length = ui.layoutGroups.length ∧
    (mapFind ui.layoutTypes g = none → ui.layoutType g = WidgetLayoutType.None) ∧
    ∃ ws2, (ui.OnPhysicsUpdate hwnd).1.layoutGroups[j]? = some (g, ws2) ∧
      ws2.length = ws.length ∧
      ∀ (i : Nat) (w w2 : Button), ws[i]? = some w → ws2[i]? = some w2 →
        w2.y = w.y ∧ w2.height = w.height ∧
        (ui.layoutType g = WidgetLayoutType.None → w2.x = w.x ∧ w2.width = w.width) := by
  refine ⟨?_, ?_, ?_⟩
  · simp [UI.OnPhysicsUpdate, physicsGroups_groups]
  · intro hnone
    rw [UI.layoutType, mapIndex_snd, hnone]
    rfl
  · obtain ⟨ws2, h1, h2, h3⟩ := OnPhysicsUpdate_group ui hwnd j g ws hg
    refine ⟨ws2, h1, h2, ?_⟩
    intro i w w2 hw hw2
    rw [h3 i, hw] at hw2
    simp only [Option.map_some', Option.some.injEq] at hw2
    subst hw2
    obtain ⟨-, hx, hy, hwd, hh⟩ := physics_frame
      (layoutWidget (ui.layoutType g) ui.width (ws.length : Int) (i : Int) w) hwnd
    rw [hx, hy, hwd, hh]
    refine ⟨?_, ?_, ?_⟩
    · cases ui.layoutType g <;> rfl
    · cases ui.layoutType g <;> rfl
    · intro hn
      rw [hn]
      exact ⟨rfl, rfl⟩

/-- C6 at the registry of the example program with its group left in mode
`None` (no `SetLayoutType` call): the pass leaves the authored geometry. -/
theorem C6_geometry_frame_witness :
    ∃ ws2, (((UI.empty.AddWidget exButton 1).AddWidget exButton 1).OnPhysicsUpdate
        hostInDown).1.layoutGroups[0]? = some (1, ws2) ∧
      ws2.length = 2 ∧
      ∀ (i : Nat) (w w2 : Button),
        [{ exButton with id := 0 }, { exButton with id := 1 }][i]? = some w →
        ws2[i]? = some w2 →
        w2.y = w.y ∧ w2.height = w.height ∧ w2.x = w.x ∧ w2.width = w.width := by
  obtain ⟨-, hn, ws2, h1, h2, h3⟩ := C6_geometry_frame
    ((UI.empty.AddWidget exButton 1).AddWidget exButton 1) hostInDown 0 1
    [{ exButton with id := 0 }, { exButton with id := 1 }] (by decide)
  refine ⟨ws2, h1, h2, ?_⟩
  intro i w w2 hw hw2
  obtain ⟨hy, hh, hx⟩ := h3 i w w2 hw hw2
  exact ⟨hy, hh, hx (hn (by decide))⟩

/-- C9, as stated, fails: when the handler of a resize from 800 to 400 wide
returns, the three buttons of the example still sit in the slots computed
from 800, not in those computed from 400; only the stored width is 400. -/
theorem C9_counterexample :
    exUI.width = 800 ∧
    (GetClientRect hostResized).right - (GetClientRect hostResized).left = 400 ∧
    (exUI.WndProc hostResized Message.WM_SIZE).1.width = 400 ∧
    (exUI.WndProc hostResized Message.WM_SIZE).1.spans =
      [[(10, 246), (276, 246), (542, 246)]] ∧
    ¬ (∀ (ui : UI) (hwnd : Host) (j : Nat) (g : Int) (ws : List Button),
        ui.layoutGroups[j]? = some (g, ws) →
        ui.layoutType g = WidgetLayoutType.HorizontalFill →
        ∃ ws2, (ui.WndProc hwnd Message.WM_SIZE).1.layoutGroups[j]? = some (g, ws2) ∧
          ∀ (i : Nat) (w : Button), ws2[i]? = some w →
            w.x = 10 + Int.tdiv ((GetClientRect hwnd).right - (GetClientRect hwnd).left)
              (ws.length : Int) * (i : Int) ∧
            w.width = Int.tdiv ((GetClientRect hwnd).right - (GetClientRect hwnd).left)
              (ws.length : Int) - 20) := by
  refine ⟨rfl, by decide, by decide, by decide, fun hall => ?_⟩
  obtain ⟨ws2, h1, h3⟩ := hall exUI hostResized 0 1
    [{ exButton with id := 0 }, { exButton with id := 1 }, { exButton with id := 2 }]
    (by decide) (by decide)
  have hev : (exUI.WndProc hostResized Message.WM_SIZE).1.layoutGroups[0]? =
      some (1, [{ exButton with id := 0, x := 10, width := 246 },
        { exButton with id := 1, x := 276, width := 246 },
        { exButton with id := 2, x := 542, width := 246 }]) := by decide
  rw [hev] at h1
  simp only [Option.some.injEq, Prod.mk.injEq, true_and] at h1
  subst h1
  have h4 := (h3 0 { exButton with id := 0, x := 10, width := 246 } rfl).2
  revert h4
  decide

/-- C9, amended: the handler of a resize notification runs its layout pass
before it stores the new surface width. When it returns, the stored width is
the new one, `W2`, and the widget at position `i` of every `HorizontalFill`
group with `N` widgets has `x = 10 + (W / N) * i` and `width = (W / N) - 20`
for the width `W` stored before the notification; the pass of the next
handled message, whatever it is, lays the group out with `W2`. -/
theorem C9_resize_layout (ui : UI) (hwnd : Host) (j : Nat) (g : Int)
    (ws : List Button) (hg : ui.layoutGroups[j]? = some (g, ws))
    (ht : ui.layoutType g = WidgetLayoutType.HorizontalFill) :
    (ui.WndProc hwnd Message.WM_SIZE).1.width =
      (GetClientRect hwnd).right - (GetClientRect hwnd).left ∧
    (∃ ws2, (ui.WndProc hwnd Message.WM_SIZE).1.layoutGroups[j]? = some (g, ws2) ∧
      ws2.length = ws.length ∧
      ∀ (i : Nat) (w : Button), ws2[i]? = some w →
        w.x = 10 + Int.tdiv ui.width (ws.length : Int) * (i : Int) ∧
        w.width = Int.tdiv ui.width (ws.length : Int) - 20) ∧
    (∀ (hwnd2 : Host) (m : Message),
      ∃ ws3, ((ui.WndProc hwnd Message.WM_SIZE).1.WndProc hwnd2 m).1.layoutGroups[j]? =
          some (g, ws3) ∧
        ws3.length = ws.length ∧
        ∀ (i : Nat) (w : Button), ws3[i]? = some w →
          w.x = 10 + Int.tdiv ((GetClientRect hwnd).right - (GetClientRect hwnd).left)
            (ws.length : Int) * (i : Int) ∧
          w.width = Int.tdiv ((GetClientRect hwnd).right - (GetClientRect hwnd).left)
            (ws.length : Int) - 20) := by
  obtain ⟨ws2, h1, h2, h3⟩ := OnPhysicsUpdate_fill ui hwnd j g ws hg ht
  have hgs := (WndProc_maps ui hwnd Message.WM_SIZE).1
  have hts := (WndProc_maps ui hwnd Message.WM_SIZE).2
  refine ⟨rfl, ⟨ws2, by rw [hgs]; exact h1, h2, h3⟩, ?_⟩
  intro hwnd2 m
  have hg2 : (ui.WndProc hwnd Message.WM_SIZE).1.layoutGroups[j]? = some (g, ws2) := by
    rw [hgs]; exact h1
  have ht2 : (ui.WndProc hwnd Message.WM_SIZE).1.layoutType g =
      WidgetLayoutType.HorizontalFill := by
    rw [UI.layoutType, hts]
    exact (OnPhysicsUpdate_layoutType ui hwnd g).trans ht
  obtain ⟨ws3, k1, k2, k3⟩ :=
    OnPhysicsUpdate_fill (ui.WndProc hwnd Message.WM_SIZE).1 hwnd2 j g ws2 hg2 ht2
  refine ⟨ws3, by rw [(WndProc_maps _ hwnd2 m).1]; exact k1, k2.trans h2, ?_⟩
  intro i w hw
  have := k3 i w hw
  rw [h2] at this
  exact this

/-- C9, amended, at the example program resized from 800 to 400 wide: the
slots are those of 800 when the handler returns and those of 400 after the
paint message that follows. -/
theorem C9_resize_layout_witness :
    (exUI.WndProc hostResized Message.WM_SIZE).1.width = 400 ∧
    (exUI.WndProc hostResized Message.WM_SIZE).1.spans =
      [[(10, 246), (276, 246), (542, 246)]] ∧
    ((exUI.WndProc hostResized Message.WM_SIZE).1.WndProc hostResized
      Message.WM_PAINT).1.spans = [[(10, 113), (143, 113), (276, 113)]] :=
  ⟨(C9_resize_layout exUI hostResized 0 1
      [{ exButton with id := 0 }, { exButton with id := 1 }, { exButton with id := 2 }]
      (by decide) (by decide)).1,
    by decide, by decide⟩

/-! ## Claims about the registry -/

/-- C5: starting from the empty registry, after every finite sequence of
`AddWidget` and `SetLayoutType` calls the widget at position `i` of every
group has `id = i`. `AddWidget` appends the widget with the size of its group
as id and keeps the widgets already there; three widgets added in sequence to
a fresh group have the ids 0, 1, 2; `SetLayoutType` changes no group, so no
id; and `AddWidget` to one group changes no other group. -/
theorem C5_ids_are_positions :
    (∀ (cs : List Call) (g : Int) (ws : List Button),
      (g, ws) ∈ (UI.empty.calls cs).layoutGroups →
      ∀ (i : Nat) (w : Button), ws[i]? = some w → w.id = (i : Int)) ∧
    (∀ (ui : UI) (widget : Button) (g : Int),
      mapFind (ui.AddWidget widget g).layoutGroups g =
        some ((mapFind ui.layoutGroups g).getD [] ++
          [{ widget with id := (((mapFind ui.layoutGroups g).getD []).length : Int) }])) ∧
    (∀ (ui : UI) (b1 b2 b3 : Button) (g : Int), mapFind ui.layoutGroups g = none →
      mapFind (((ui.AddWidget b1 g).AddWidget b2 g).AddWidget b3 g).layoutGroups g =
        some [{ b1 with id := 0 }, { b2 with id := 1 }, { b3 with id := 2 }]) ∧
    (∀ (ui : UI) (g : Int) (t : WidgetLayoutType),
      (ui.SetLayoutType g t).layoutGroups = ui.layoutGroups) ∧
    (∀ (ui : UI) (widget : Button) (g g2 : Int), g2 ≠ g →
      mapFind (ui.AddWidget widget g).layoutGroups g2 = mapFind ui.layoutGroups g2) := by
  have hadd : ∀ (ui : UI) (widget : Button) (g : Int),
      mapFind (ui.AddWidget widget g).layoutGroups g =
        some ((mapFind ui.layoutGroups g).getD [] ++
          [{ widget with id := (((mapFind ui.layoutGroups g).getD []).length : Int) }]) := by
    intro ui widget g
    rw [AddWidget_layoutGroups, mapFind_mapSet_self]
  refine ⟨?_, hadd, ?_, ?_, ?_⟩
  · intro cs
    apply calls_ids cs UI.empty
    intro g ws hmem
    simp [UI.empty] at hmem
  · intro ui b1 b2 b3 g hnone
    rw [hadd, hadd, hadd, hnone]
    rfl
  · intro ui g t
    rfl
  · intro ui widget g g2 hne
    rw [AddWidget_layoutGroups, mapFind_mapSet_other _ _ _ _ hne]

/-- C5 at the calls of the example program: the three buttons of group 1
have the ids 0, 1, 2 after the `SetLayoutType` call that follows them. -/
theorem C5_ids_are_positions_witness :
    (∀ (i : Nat) (w : Button),
      [{ exButton with id := 0 }, { exButton with id := 1 }, { exButton with id := 2 }][i]? =
        some w → w.id = (i : Int)) ∧
    mapFind (((UI.empty.AddWidget exButton 1).AddWidget exButton 1).AddWidget
      exButton 1).layoutGroups 1 =
      some [{ exButton with id := 0 }, { exButton with id := 1 }, { exButton with id := 2 }] :=
  ⟨C5_ids_are_positions.1
      [Call.AddWidget exButton 1, Call.AddWidget exButton 1, Call.AddWidget exButton 1,
        Call.SetLayoutType 1 WidgetLayoutType.HorizontalFill]
      1 [{ exButton with id := 0 }, { exButton with id := 1 }, { exButton with id := 2 }]
      (by decide),
    C5_ids_are_positions.2.2.1 UI.empty exButton exButton exButton 1 rfl⟩

end SkidGUI
